import Mathlib

/-!
Verification of the RohlikCZ integration (`custom_components/rohlikcz`).

This development shallowly embeds the two core components of the repository:

* the delivery-time text parser `DeliveryInfo.extract_delivery_datetime`
  (`custom_components/rohlikcz/sensor.py`, lines 113-277), together with the
  Python string preprocessing it performs
  (`text.encode("utf-8").decode("unicode_escape")`, HTML tag stripping, and
  the concrete regular expressions it applies), and

* the API client `RohlikCZAPI`
  (`custom_components/rohlikcz/rohlik_api.py`): `login`, `get_data`,
  `get_cart_content` and `search_product`, modelled as pure functions over an
  explicit environment describing the outcome of each outbound HTTP request,
  with Python exceptions modelled as an explicit `Except` error channel.

Modelling conventions, used throughout:

* Machine-level details that the source never exercises on the claims in
  question (datetime year-range overflow, non-ASCII word characters in
  `\\b`, lone surrogates produced by `\\uXXXX` escapes, `\\N{...}` named
  escapes) are noted at the definition that simplifies them.
* Python `dict.get(key, default)` chains over decoded JSON are modelled with
  structures whose optional fields conflate a JSON `null` with an absent key;
  each such spot carries a comment.
* Wherever the code catches `ValueError` around `datetime(...)`/`time(...)`
  construction, the embedding uses an `Option`-returning constructor whose
  `none` is exactly the `ValueError` case.
-/

/-! ## Wall-clock datetimes

`datetime.now(tz=tz)` and every datetime built by the parser carry the same
`ZoneInfo` zone, so Python compares them by identical UTC offsets, which on a
single calendar day coincides with wall-clock comparison.  The embedding
therefore represents an aware datetime as its wall-clock fields plus a zone
tag (`Europe/Prague` for the primary shop, `Europe/Berlin` for Knuspr) and
compares wall clocks.  Years are unbounded integers; Python's year 1..9999
`OverflowError` boundary is not modelled. -/

/-- Timezone selected by the shop-variant flag in
`extract_delivery_datetime`: `ZoneInfo("Europe/Berlin")` when `is_knuspr`
else `ZoneInfo("Europe/Prague")` (sensor.py line 140). -/
inductive Tz where
  | prague
  | berlin
deriving DecidableEq, Repr

/-- Wall-clock fields of a Python `datetime` (microsecond precision). -/
structure LocalDT where
  year : Int
  month : Nat
  day : Nat
  hour : Nat
  minute : Nat
  second : Nat
  micro : Nat
deriving DecidableEq, Repr

/-- An aware datetime: wall clock plus the zone attached via
`tzinfo=tz` / `datetime.now(tz=tz)`. -/
structure AwareDT where
  dt : LocalDT
  tz : Tz
deriving DecidableEq, Repr

/-- Gregorian leap year, as used by Python `datetime`. -/
def isLeapYear (y : Int) : Bool :=
  (y % 4 == 0 && y % 100 != 0) || (y % 400 == 0)

/-- Number of days of a month (`month` in 1..12), as used by Python
`datetime` for its `ValueError` range checks. -/
def daysInMonth (y : Int) (m : Nat) : Nat :=
  if m == 2 then (if isLeapYear y then 29 else 28)
  else if m == 4 || m == 6 || m == 9 || m == 11 then 30
  else 31

/-- Validity of a `datetime(year, month, day, hour, minute)` call: Python
raises `ValueError` outside these ranges. -/
def validDateTime (y : Int) (mo d h mi : Nat) : Bool :=
  1 ≤ mo && mo ≤ 12 && 1 ≤ d && d ≤ daysInMonth y mo && h ≤ 23 && mi ≤ 59

/-- Validity of a `time(hour, minute)` call: Python raises `ValueError`
outside these ranges. -/
def validTime (h mi : Nat) : Bool :=
  h ≤ 23 && mi ≤ 59

/-- The guarded constructor `datetime(year, month, day, hour, minute,
tzinfo=tz)`: `none` models the `ValueError` that the source catches. -/
def mkDateTime (y : Int) (mo d h mi : Nat) : Option LocalDT :=
  if validDateTime y mo d h mi then
    some ⟨y, mo, d, h, mi, 0, 0⟩
  else
    none

/-- Days since 1970-01-01 of a civil date (floor-based civil-from-days
arithmetic, matching `datetime.date` ordinal arithmetic). -/
def dateToDays (y : Int) (mo d : Nat) : Int :=
  let y' : Int := if mo ≤ 2 then y - 1 else y
  let era : Int := Int.fdiv y' 400
  let yoe : Int := y' - era * 400
  let mp : Int := (Int.ofNat mo + 9) % 12
  let doy : Int := Int.fdiv (153 * mp + 2) 5 + Int.ofNat d - 1
  let doe : Int := yoe * 365 + Int.fdiv yoe 4 - Int.fdiv yoe 100 + doy
  era * 146097 + doe - 719468

/-- Civil date from days since 1970-01-01 (inverse of `dateToDays`). -/
def daysToDate (z : Int) : Int × Nat × Nat :=
  let z' := z + 719468
  let era : Int := Int.fdiv z' 146097
  let doe : Int := z' - era * 146097
  let yoe : Int := Int.fdiv (doe - Int.fdiv doe 1460 + Int.fdiv doe 36524 - Int.fdiv doe 146096) 365
  let y : Int := yoe + era * 400
  let doy : Int := doe - (365 * yoe + Int.fdiv yoe 4 - Int.fdiv yoe 100)
  let mp : Int := Int.fdiv (5 * doy + 2) 153
  let d : Int := doy - Int.fdiv (153 * mp + 2) 5 + 1
  let m : Int := if mp < 10 then mp + 3 else mp - 9
  (if m ≤ 2 then y + 1 else y, m.toNat, d.toNat)

/-- The date following `(y, mo, d)`: `today + timedelta(days=1)` in the
today/tomorrow resolution of the parser. -/
def nextDate (y : Int) (mo d : Nat) : Int × Nat × Nat :=
  daysToDate (dateToDays y mo d + 1)

/-- Total microseconds represented by a wall-clock datetime, used to compare
two aware datetimes that carry the same zone (Python compares their
offset-adjusted instants, which agree with wall-clock order while the UTC
offset is constant). -/
def LocalDT.toMicros (a : LocalDT) : Int :=
  ((dateToDays a.year a.month a.day * 24 + Int.ofNat a.hour) * 60
      + Int.ofNat a.minute) * 60000000
    + Int.ofNat (a.second * 1000000 + a.micro)

/-- Strict `<` on two same-zone aware datetimes. -/
def dtLt (a b : LocalDT) : Bool :=
  a.toMicros < b.toMicros

/-- Computes `now + timedelta(minutes=n)`: timedelta addition acts on the
wall clock of an aware datetime (Python does not renormalize the offset). -/
def addMinutes (a : LocalDT) (n : Nat) : LocalDT :=
  let total : Int :=
    (dateToDays a.year a.month a.day * 24 + Int.ofNat a.hour) * 60
      + Int.ofNat a.minute + Int.ofNat n
  let mins : Int := Int.emod total 1440
  let days : Int := Int.fdiv total 1440
  let (y, mo, d) := daysToDate days
  ⟨y, mo, d, (Int.fdiv mins 60).toNat, (Int.emod mins 60).toNat, a.second, a.micro⟩

/-- Builds `datetime.combine(date, time(h, mi)).replace(tzinfo=tz)` from the
date of `now`, as in the today/tomorrow block of the parser (seconds and
microseconds are zero). -/
def combineToday (now : LocalDT) (h mi : Nat) : LocalDT :=
  ⟨now.year, now.month, now.day, h, mi, 0, 0⟩

/-- Builds the same time of day on `now.date() + timedelta(days=1)`. -/
def combineTomorrow (now : LocalDT) (h mi : Nat) : LocalDT :=
  let (y, mo, d) := nextDate now.year now.month now.day
  ⟨y, mo, d, h, mi, 0, 0⟩

/-! ## The `text.encode("utf-8").decode("unicode_escape")` preprocessing

`extract_delivery_datetime` first re-encodes its argument to UTF-8 bytes and
decodes those bytes with Python's `unicode_escape` codec (sensor.py line
134).  The codec maps each non-backslash byte to the Latin-1 character of
the same value and interprets backslash escapes; a malformed escape
(trailing backslash, `\x`/`\u`/`\U` with too few hex digits, out-of-range
`\U`) raises `UnicodeDecodeError`.  `decodeUnicodeEscape` returns `none`
exactly on the raising inputs.  Two simplifications, both irrelevant to any
pattern the parser matches: `\N{...}` named escapes are treated as a decode
failure (the Unicode name table is not embedded), and a `\uXXXX` escape
denoting a lone surrogate, which Lean strings cannot hold, decodes to
U+FFFD. -/

/-- UTF-8 byte sequence of one Unicode scalar value. -/
def utf8EncodeChar (c : Char) : List Nat :=
  let n := c.toNat
  if n < 0x80 then [n]
  else if n < 0x800 then
    [0xC0 + n / 0x40, 0x80 + n % 0x40]
  else if n < 0x10000 then
    [0xE0 + n / 0x1000, 0x80 + n / 0x40 % 0x40, 0x80 + n % 0x40]
  else
    [0xF0 + n / 0x40000, 0x80 + n / 0x1000 % 0x40, 0x80 + n / 0x40 % 0x40,
      0x80 + n % 0x40]

/-- UTF-8 bytes of a string, the `text.encode("utf-8")` step. -/
def utf8Encode (cs : List Char) : List Nat :=
  cs.flatMap utf8EncodeChar

/-- A scalar-value-safe character constructor; values that are not Unicode
scalars (lone surrogates) become U+FFFD. -/
def mkChar (n : Nat) : Char :=
  if h : n.isValidChar then Char.ofNatAux n h
  else ⟨0xFFFD, by decide⟩

/-- Numeric value of a hexadecimal digit byte, if it is one. -/
def hexVal (b : Nat) : Option Nat :=
  if 0x30 ≤ b && b ≤ 0x39 then some (b - 0x30)
  else if 0x41 ≤ b && b ≤ 0x46 then some (b - 0x41 + 10)
  else if 0x61 ≤ b && b ≤ 0x66 then some (b - 0x61 + 10)
  else none

/-- Reads `k` hexadecimal digit bytes, as `\x`, `\u` and `\U` escapes do. -/
def readHex : Nat → List Nat → Option (Nat × List Nat)
  | 0, bs => some (0, bs)
  | _ + 1, [] => none
  | k + 1, b :: bs =>
    match hexVal b with
    | none => none
    | some v =>
      match readHex k bs with
      | none => none
      | some (rest, bs') => some (v * 16 ^ k + rest, bs')

/-- True for an octal digit byte `0`..`7`. -/
def isOctByte (b : Nat) : Bool :=
  0x30 ≤ b && b ≤ 0x37

/-- Decodes one backslash escape (the byte after the backslash has already
been split off as `b`); returns the decoded characters (possibly none, for a
line continuation) and the remaining bytes, or `none` for the malformed
escapes on which `unicode_escape` raises. -/
def decodeEscape (b : Nat) (bs : List Nat) : Option (List Char × List Nat) :=
  if b == 0x0A then some ([], bs)
  else if b == 0x5C then some (['\\'], bs)
  else if b == 0x27 then some (['\''], bs)
  else if b == 0x22 then some (['"'], bs)
  else if b == 0x61 then some ([mkChar 7], bs)
  else if b == 0x62 then some ([mkChar 8], bs)
  else if b == 0x66 then some ([mkChar 12], bs)
  else if b == 0x6E then some (['\n'], bs)
  else if b == 0x72 then some (['\r'], bs)
  else if b == 0x74 then some (['\t'], bs)
  else if b == 0x76 then some ([mkChar 11], bs)
  else if isOctByte b then
    -- up to three octal digits, greedily
    match bs with
    | b2 :: bs2 =>
      if isOctByte b2 then
        match bs2 with
        | b3 :: bs3 =>
          if isOctByte b3 then
            some ([mkChar ((b - 0x30) * 64 + (b2 - 0x30) * 8 + (b3 - 0x30))], bs3)
          else some ([mkChar ((b - 0x30) * 8 + (b2 - 0x30))], bs2)
        | [] => some ([mkChar ((b - 0x30) * 8 + (b2 - 0x30))], bs2)
      else some ([mkChar (b - 0x30)], bs)
    | [] => some ([mkChar (b - 0x30)], bs)
  else if b == 0x78 then
    -- \xHH, exactly two hex digits or UnicodeDecodeError
    match readHex 2 bs with
    | none => none
    | some (v, bs') => some ([mkChar v], bs')
  else if b == 0x75 then
    -- \uHHHH
    match readHex 4 bs with
    | none => none
    | some (v, bs') => some ([mkChar v], bs')
  else if b == 0x55 then
    -- \UHHHHHHHH, range-checked
    match readHex 8 bs with
    | none => none
    | some (v, bs') => if v ≤ 0x10FFFF then some ([mkChar v], bs') else none
  else if b == 0x4E then
    -- \N{NAME}: modelled as a decode failure, see the section comment
    none
  else
    -- unknown escape: Python keeps the backslash and the byte
    some (['\\', mkChar b], bs)

/-- The `unicode_escape` decoder over a byte list, fuelled by the byte
count (every step consumes at least one byte). -/
def decodeUEAux : Nat → List Nat → Option (List Char)
  | _, [] => some []
  | 0, _ :: _ => none
  | fuel + 1, b :: bs =>
    if b == 0x5C then
      match bs with
      | [] => none
      | b2 :: bs2 =>
        match decodeEscape b2 bs2 with
        | none => none
        | some (cs, bs') =>
          match decodeUEAux fuel bs' with
          | none => none
          | some rest => some (cs ++ rest)
    else
      match decodeUEAux fuel bs with
      | none => none
      | some rest => some (mkChar b :: rest)

/-- The preprocessing `text.encode("utf-8").decode("unicode_escape")`;
`none` models the `UnicodeDecodeError` that the parser does not catch. -/
def decodeUnicodeEscape (s : String) : Option (List Char) :=
  let bs := utf8Encode s.data
  decodeUEAux bs.length bs

/-! ## Character classes and scanning primitives

The parser applies a fixed set of regular expressions with `re.search`,
`re.finditer` and `re.findall`.  Each pattern is embedded as a dedicated
matcher: an anchored attempt at one position, plus a left-to-right scan that
advances one character at a time on failure — exactly the leftmost-match
semantics of `re.search`.  Case-insensitive literals are compared after
ASCII lowercasing (every literal in the source patterns is ASCII; exotic
Unicode case foldings of `re.IGNORECASE` are not modelled).  `\w` is
modelled as ASCII alphanumerics plus underscore (Python additionally treats
non-ASCII letters as word characters; no claim exercises those). -/

/-- ASCII lowercasing for case-insensitive literal matching. -/
def lowerCh (c : Char) : Char :=
  if 'A' ≤ c && c ≤ 'Z' then Char.ofNat (c.toNat + 32) else c

/-- The regex class `[0-9]` (the source patterns use the explicit class, not
`\d`). -/
def isDigitCh (c : Char) : Bool :=
  '0' ≤ c && c ≤ '9'

/-- The regex class `\w`: ASCII letters, digits and underscore (see the
section comment for the non-ASCII simplification). -/
def isWordCh (c : Char) : Bool :=
  ('a' ≤ c && c ≤ 'z') || ('A' ≤ c && c ≤ 'Z') || isDigitCh c || c == '_'

/-- The regex class `\s` over Python `str`: ASCII whitespace, the C1
separators, and the Unicode space characters. -/
def isSpaceCh (c : Char) : Bool :=
  let n := c.toNat
  (9 ≤ n && n ≤ 13) || (28 ≤ n && n ≤ 31) || n == 32 || n == 0x85 ||
    n == 0xA0 || n == 0x1680 || (0x2000 ≤ n && n ≤ 0x200A) ||
    n == 0x2028 || n == 0x2029 || n == 0x202F || n == 0x205F || n == 0x3000

/-- Consumes a literal case-insensitively, returning the remaining input. -/
def stripPrefixCI : List Char → List Char → Option (List Char)
  | [], cs => some cs
  | _ :: _, [] => none
  | p :: ps, c :: cs => if lowerCh c == lowerCh p then stripPrefixCI ps cs else none

/-- Consumes a literal case-sensitively, returning the remaining input. -/
def stripPrefixCS : List Char → List Char → Option (List Char)
  | [], cs => some cs
  | _ :: _, [] => none
  | p :: ps, c :: cs => if c == p then stripPrefixCS ps cs else none

/-- Drops leading `\s*` whitespace. -/
def skipSpaces (cs : List Char) : List Char :=
  cs.dropWhile isSpaceCh

/-- Numeric value of a digit run, the `int(...)` applied to a captured
group of `[0-9]` characters (such a group always parses, so this `int`
call cannot raise). -/
def digitsVal (ds : List Char) : Nat :=
  ds.foldl (fun a c => a * 10 + (c.toNat - 48)) 0

/-- The `\b` word-boundary test between an optional preceding character and
the rest of the input. -/
def boundaryAt (prev : Option Char) (cs : List Char) : Bool :=
  let pw := match prev with
    | none => false
    | some c => isWordCh c
  let nw := match cs with
    | [] => false
    | c :: _ => isWordCh c
  pw != nw

/-- Substring containment, for the `[^>]*color:[^>]*` requirement inside a
highlighted span tag. -/
def containsSub (needle : List Char) : List Char → Bool
  | [] => needle.isEmpty
  | c :: rest => needle.isPrefixOf (c :: rest) || containsSub needle rest

/-- Splits at the first `>`: the `[^>]*>` (or `[^>]+>`) component of the tag
patterns.  Returns the characters before the `>` and the input after it. -/
def splitGt : List Char → Option (List Char × List Char)
  | [] => none
  | c :: rest =>
    if c == '>' then some ([], rest)
    else
      match splitGt rest with
      | none => none
      | some (ins, aft) => some (c :: ins, aft)

/-- Left-to-right scan driving an anchored matcher: the `re.search`
semantics of returning the match at the leftmost position where the
anchored attempt succeeds.  The fuel is the input length (each step consumes
one character). -/
def searchAux {α : Type} (tryAt : Option Char → List Char → Option α) :
    Nat → Option Char → List Char → Option α
  | _, _, [] => none
  | 0, _, _ :: _ => none
  | fuel + 1, prev, c :: rest =>
    match tryAt prev (c :: rest) with
    | some v => some v
    | none => searchAux tryAt fuel (some c) rest

/-- Runs an anchored matcher as `re.search` over a whole input. -/
def searchPat {α : Type} (tryAt : Option Char → List Char → Option α)
    (cs : List Char) : Option α :=
  searchAux tryAt cs.length none cs

/-- One step of `re.sub(r"<[^>]+>", "", text)`: a `<` opens a removed span
iff a later `>` exists with at least one character in between; otherwise the
`<` is literal text.  Scanning resumes after the removed `>`. -/
def stripTagsAux : Nat → List Char → List Char
  | _, [] => []
  | 0, _ :: _ => []
  | fuel + 1, c :: rest =>
    if c == '<' then
      match splitGt rest with
      | some ([], _) => c :: stripTagsAux fuel rest
      | some (_ :: _, aft) => stripTagsAux fuel aft
      | none => c :: stripTagsAux fuel rest
    else c :: stripTagsAux fuel rest

/-- The tag-stripping preprocessing `re.sub(r"<[^>]+>", "", text)`
(sensor.py line 137). -/
def stripTags (cs : List Char) : List Char :=
  stripTagsAux cs.length cs

/-! ## The concrete patterns of `extract_delivery_datetime`

One anchored matcher per source pattern.  Greedy-with-backtracking parts are
embedded by their observable behaviour, recorded at each matcher:

* `([0-9]{1,3})` (or `{1,2}`) followed by a non-digit literal matches iff a
  maximal digit run of the allowed length sits exactly before the literal —
  backtracking to a shorter prefix always leaves a digit where the non-digit
  literal must be, so it never helps;
* `<span[^>]*>` consumes up to the first `>` after `<span`, since `[^>]`
  cannot cross a `>`;
* the alternation `minut|minuty|min|Minuten|Min\\.?|Min` is matched
  alternative by alternative; without a following `\b` its success is
  equivalent to a case-insensitive `min` prefix, and with a following `\b`
  each alternative carries its own boundary test.  (In the source the fifth
  alternative, a regex-level `Min` followed by a literal backslash, comes
  from the doubled backslash in the Python string; it is kept here.) -/

/-- Success of the bare minutes-keyword alternation (no trailing context),
as used by the highlighted-span minutes pattern. -/
def minutesKeywordAhead (cs : List Char) : Bool :=
  (stripPrefixCI "minut".data cs).isSome ||
  (stripPrefixCI "minuty".data cs).isSome ||
  (stripPrefixCI "min".data cs).isSome ||
  (stripPrefixCI "minuten".data cs).isSome ||
  (stripPrefixCI ['m', 'i', 'n', '\\'] cs).isSome

/-- One alternative of the keyword alternation followed by `\b`: the
literal must be a case-insensitive prefix and a word boundary must follow
(every alternative ends in a letter, so the boundary demands a non-word
character or end of input). -/
def keywordAltBnd (lit : List Char) (cs : List Char) : Bool :=
  match stripPrefixCI lit cs with
  | none => false
  | some rest =>
    match rest with
    | [] => true
    | c :: _ => !isWordCh c

/-- The `Min\\.?` alternative followed by `\b`: a case-insensitive `min`,
a literal backslash, an optional non-newline character, then a word
boundary.  (This alternative is unreachable — whenever it could apply, the
earlier bare `min` alternative already succeeded — but it is embedded for
fidelity.) -/
def minBackslashAltBnd (cs : List Char) : Bool :=
  match stripPrefixCI ['m', 'i', 'n', '\\'] cs with
  | none => false
  | some rest =>
    match rest with
    | [] => false
    | c :: rest2 =>
      if c == '\n' then false
      else boundaryAt (some c) rest2 || boundaryAt (some '\\') (c :: rest2)

/-- The keyword alternation followed by `\b`, as used by the plain-text
minutes pattern; success of any alternative, each with its boundary. -/
def minutesKeywordBnd (cs : List Char) : Bool :=
  keywordAltBnd "minut".data cs ||
  keywordAltBnd "minuty".data cs ||
  keywordAltBnd "min".data cs ||
  keywordAltBnd "minuten".data cs ||
  minBackslashAltBnd cs

/-- Anchored attempt of
`<span[^>]*>([0-9]{1,3})</span>\s*(?:minut|minuty|min|Minuten|Min\\.?|Min)`
(IGNORECASE) on `clean_text`; yields the captured minute count. -/
def spanMinutesAt (_prev : Option Char) (cs : List Char) : Option Nat :=
  match stripPrefixCI "<span".data cs with
  | none => none
  | some r1 =>
    match splitGt r1 with
    | none => none
    | some (_, r2) =>
      let ds := r2.takeWhile isDigitCh
      let r3 := r2.dropWhile isDigitCh
      if 1 ≤ ds.length && ds.length ≤ 3 then
        match stripPrefixCI "</span>".data r3 with
        | none => none
        | some r4 =>
          if minutesKeywordAhead (skipSpaces r4) then some (digitsVal ds) else none
      else none

/-- The search for the highlighted minutes pattern (sensor.py lines
150-154). -/
def searchSpanMinutes (cs : List Char) : Option Nat :=
  searchPat spanMinutesAt cs

/-- Anchored attempt of `\b([0-9]{1,3})\s*(?:minut|...|Min)\b` (IGNORECASE)
on `plain_text`; yields the captured minute count. -/
def plainMinutesAt (prev : Option Char) (cs : List Char) : Option Nat :=
  if boundaryAt prev cs then
    let ds := cs.takeWhile isDigitCh
    let r1 := cs.dropWhile isDigitCh
    if 1 ≤ ds.length && ds.length ≤ 3 then
      if minutesKeywordBnd (skipSpaces r1) then some (digitsVal ds) else none
    else none
  else none

/-- The search for the plain-text minutes fallback (sensor.py lines
162-166). -/
def searchPlainMinutes (cs : List Char) : Option Nat :=
  searchPat plainMinutesAt cs

/-- Parses `([0-9]{1,2})\.` at the head: a maximal digit run of length one
or two directly followed by a literal dot. -/
def digitsDot (cs : List Char) : Option (Nat × List Char) :=
  let ds := cs.takeWhile isDigitCh
  let r1 := cs.dropWhile isDigitCh
  if 1 ≤ ds.length && ds.length ≤ 2 then
    match r1 with
    | '.' :: r2 => some (digitsVal ds, r2)
    | _ => none
  else none

/-- Parses the time group `([0-9]{1,2}:[0-9]{2})` at the head: a maximal
digit run of length one or two, a colon, then exactly two digits.  Yields
`(hour, minute)` as the two `int(...)` conversions of the split group. -/
def timeGroup (cs : List Char) : Option ((Nat × Nat) × List Char) :=
  let ds := cs.takeWhile isDigitCh
  let r1 := cs.dropWhile isDigitCh
  if 1 ≤ ds.length && ds.length ≤ 2 then
    match r1 with
    | ':' :: d1 :: d2 :: r2 =>
      if isDigitCh d1 && isDigitCh d2 then
        some ((digitsVal ds, digitsVal [d1, d2]), r2)
      else none
    | _ => none
  else none

/-- Parses `(?:ca\.\s*)?` followed by the time group: if `ca.` is present
it is consumed greedily (declining it cannot help, since the time group
cannot start with the letter c). -/
def optCaTime (cs : List Char) : Option ((Nat × Nat) × List Char) :=
  match stripPrefixCI "ca.".data cs with
  | some r1 => timeGroup (skipSpaces r1)
  | none => timeGroup cs

/-- Anchored attempt of the German date+time pattern
`am\s*([0-9]{1,2})\.\s*([0-9]{1,2})\.\s*(?:um|gegen)\s*(?:ca\.\s*)?([0-9]{1,2}:[0-9]{2})`
(IGNORECASE); yields `(day, month, hour, minute)`. -/
def deDateTimeAt (_prev : Option Char) (cs : List Char) : Option (Nat × Nat × Nat × Nat) :=
  match stripPrefixCI "am".data cs with
  | none => none
  | some r1 =>
    match digitsDot (skipSpaces r1) with
    | none => none
    | some (d, r2) =>
      match digitsDot (skipSpaces r2) with
      | none => none
      | some (mo, r3) =>
        -- the alternation `(?:um|gegen)`: which branch fires is not
        -- observable, the branches start with different letters
        match stripPrefixCI "um".data (skipSpaces r3) <|>
              stripPrefixCI "gegen".data (skipSpaces r3) with
        | none => none
        | some r4 =>
          match optCaTime (skipSpaces r4) with
          | none => none
          | some ((h, mi), _) => some (d, mo, h, mi)

/-- The search for the German date+time pattern (sensor.py lines
176-180). -/
def searchDeDateTime (cs : List Char) : Option (Nat × Nat × Nat × Nat) :=
  searchPat deDateTimeAt cs

/-- Anchored attempt of the German time-only pattern
`(?:gegen|um)\s*(?:ca\.\s*)?([0-9]{1,2}:[0-9]{2})` (IGNORECASE); yields
`(hour, minute)`. -/
def deTimeOnlyAt (_prev : Option Char) (cs : List Char) : Option (Nat × Nat) :=
  match stripPrefixCI "gegen".data cs <|> stripPrefixCI "um".data cs with
  | none => none
  | some r1 =>
    match optCaTime (skipSpaces r1) with
    | none => none
    | some (hm, _) => some hm

/-- The search for the German time-only pattern (sensor.py lines
191-195). -/
def searchDeTimeOnly (cs : List Char) : Option (Nat × Nat) :=
  searchPat deTimeOnlyAt cs

/-- Consumes `<span[^>]*color:[^>]*>` case-sensitively: a literal `<span`,
then the characters up to the first `>` must contain `color:`. -/
def spanColorOpen (cs : List Char) : Option (List Char) :=
  match stripPrefixCS "<span".data cs with
  | none => none
  | some r1 =>
    match splitGt r1 with
    | none => none
    | some (ins, aft) =>
      if containsSub "color:".data ins then some aft else none

/-- Anchored attempt of the highlighted date pattern
`<span[^>]*color:[^>]*>([0-9]{1,2}\.[0-9]{1,2}\.)</span>` (case-sensitive);
yields `(day, month)` as parsed from the captured group by
`map(int, date_str.replace(".", " ").split())`. -/
def spanColorDateAt (_prev : Option Char) (cs : List Char) : Option (Nat × Nat) :=
  match spanColorOpen cs with
  | none => none
  | some r1 =>
    match digitsDot r1 with
    | none => none
    | some (d, r2) =>
      match digitsDot r2 with
      | none => none
      | some (mo, r3) =>
        match stripPrefixCS "</span>".data r3 with
        | none => none
        | some _ => some (d, mo)

/-- First match of the highlighted date pattern.  The source collects all
`finditer` matches but reads only `date_matches[0]` and the truthiness of
the list, both of which this first match determines. -/
def searchSpanColorDate (cs : List Char) : Option (Nat × Nat) :=
  searchPat spanColorDateAt cs

/-- Anchored attempt of the highlighted time pattern
`<span[^>]*color:[^>]*>([0-9]{1,2}:[0-9]{2})</span>` (case-sensitive);
yields `(hour, minute)`. -/
def spanColorTimeAt (_prev : Option Char) (cs : List Char) : Option (Nat × Nat) :=
  match spanColorOpen cs with
  | none => none
  | some r1 =>
    match timeGroup r1 with
    | none => none
    | some (hm, r2) =>
      match stripPrefixCS "</span>".data r2 with
      | none => none
      | some _ => some hm

/-- First match of the highlighted time pattern (the source reads only
`time_matches[0]` and the truthiness of the list). -/
def searchSpanColorTime (cs : List Char) : Option (Nat × Nat) :=
  searchPat spanColorTimeAt cs

/-- Anchored attempt of the generic fallback `\b([0-9]{1,2}:[0-9]{2})\b`;
yields `(hour, minute)`. -/
def plainTimeAt (prev : Option Char) (cs : List Char) : Option (Nat × Nat) :=
  if boundaryAt prev cs then
    match timeGroup cs with
    | none => none
    | some (hm, rest) =>
      -- trailing \b: the minute digits are word characters, so the
      -- boundary demands a non-word character or end of input
      match rest with
      | [] => some hm
      | c :: _ => if isWordCh c then none else some hm
  else none

/-- First match of the generic fallback time pattern (the source reads only
`plain_time_matches[0]` and the truthiness of the `findall` list). -/
def searchPlainTime (cs : List Char) : Option (Nat × Nat) :=
  searchPat plainTimeAt cs

/-! ## `DeliveryInfo.extract_delivery_datetime` (sensor.py lines 113-277) -/

/-- Python exception classes that can leave the embedded functions; the
constructors mirror the classes raised by the source. -/
inductive PyExc where
  /-- `UnicodeDecodeError` from `decode("unicode_escape")`. -/
  | unicodeDecodeError
  /-- `errors.InvalidCredentialsError` with `messages[0]["content"]`. -/
  | invalidCredentials (content : String)
  /-- `errors.RohlikczError`; the carried vendor message is interpolated
  into the fixed template `Unknown error occurred during login: ...`. -/
  | rohlikczLoginError (content : String)
  /-- `errors.APIRequestFailedError` wrapping a transport failure. -/
  | apiRequestFailed (msg : String)
  /-- A built-in `ValueError`, as raised by `get_cart_content`. -/
  | valueError (msg : String)
  /-- A `requests.exceptions.RequestException` escaping uncaught. -/
  | requestException (msg : String)
  /-- A `KeyError`/`IndexError` from subscripting a response mapping. -/
  | keyError
deriving DecidableEq, Repr

/-- True for the exceptions that an `except RequestException` clause
catches.  Of the exceptions modelled here only `requestException` itself
qualifies: the errors module derives its classes from
`HomeAssistantError`, not from `RequestException`. -/
def isRequestException : PyExc → Bool
  | .requestException _ => true
  | _ => false

/-- The shared today/tomorrow resolution (sensor.py lines 231-250 and
repeated verbatim in lines 256-274): build the captured time on today's
date; if that instant is strictly before `now`, move to tomorrow's date;
`none` models the caught `ValueError` of `time(hour, minute)`. -/
def resolveTimeToday (now : LocalDT) (h mi : Nat) : Option LocalDT :=
  if validTime h mi then
    let today := combineToday now h mi
    if dtLt today now then some (combineTomorrow now h mi) else some today
  else none

/-- The body of `extract_delivery_datetime` after the `unicode_escape`
preprocessing succeeded, with `clean` the decoded character list.  Every
later raise site in the source is guarded by a `try`/`except` that this
function embeds as an `Option` fall-through, so it is total.  The result
carries the zone selected by `is_knuspr`. -/
def extractFromClean (clean : List Char) (is_knuspr : Bool) (now : LocalDT) :
    Option AwareDT :=
  let plain := stripTags clean
  let tz := if is_knuspr then Tz.berlin else Tz.prague
  let current_year := now.year
  -- TYPE 3, highlighted form: the captured group is one to three digits,
  -- so the guarded int() cannot raise and the match always returns
  match searchSpanMinutes clean with
  | some n => some ⟨addMinutes now n, tz⟩
  | none =>
    -- TYPE 3, plain-text fallback
    match searchPlainMinutes plain with
    | some n => some ⟨addMinutes now n, tz⟩
    | none =>
      -- German date+time: on a match, datetime(...) is tried and a
      -- ValueError falls through to the patterns below
      let deDT : Option LocalDT :=
        if is_knuspr then
          match searchDeDateTime plain with
          | some (d, mo, h, mi) => mkDateTime current_year mo d h mi
          | none => none
        else none
      match deDT with
      | some dt => some ⟨dt, tz⟩
      | none =>
        -- The source next computes the German time-only match and stores
        -- it into time_matches (sensor.py line 197), but line 209
        -- unconditionally reassigns time_matches from the highlighted
        -- time pattern, so that value is dead; the embedding therefore
        -- takes time_matches from the highlighted pattern only (the dead
        -- computation is exposed separately as searchDeTimeOnly).
        let time_matches := searchSpanColorTime clean
        let date_matches := searchSpanColorDate clean
        -- TYPE 2: both a highlighted date and a highlighted time; an
        -- invalid datetime(...) falls through to TYPE 1 below
        let type2 : Option LocalDT :=
          match date_matches, time_matches with
          | some (d, mo), some (h, mi) => mkDateTime current_year mo d h mi
          | _, _ => none
        match type2 with
        | some dt => some ⟨dt, tz⟩
        | none =>
          -- TYPE 1: highlighted time only (also reached when TYPE 2
          -- failed on an invalid date)
          let type1 : Option LocalDT :=
            match time_matches with
            | some (h, mi) => resolveTimeToday now h mi
            | none => none
          match type1 with
          | some dt => some ⟨dt, tz⟩
          | none =>
            -- generic fallback over the plain text
            match searchPlainTime plain with
            | some (h, mi) => (resolveTimeToday now h mi).map (⟨·, tz⟩)
            | none => none

/-- The full `extract_delivery_datetime(text, is_knuspr)` with the
reference `now` injected (the source takes `datetime.now(tz=tz)`); the
error channel carries the `UnicodeDecodeError` of the unguarded
preprocessing step, the only raise site not wrapped in a `try`. -/
def extract_delivery_datetime (text : String) (is_knuspr : Bool)
    (now : LocalDT) : Except PyExc (Option AwareDT) :=
  match decodeUnicodeEscape text with
  | none => .error .unicodeDecodeError
  | some clean => .ok (extractFromClean clean is_knuspr now)

/-! ## The API client `RohlikCZAPI` (rohlik_api.py)

The client is embedded as pure functions over an explicit environment that
fixes the outcome of every outbound HTTP request.  A request outcome is
either a transport/HTTP/JSON-decode failure — all of which surface as a
`requests.exceptions.RequestException` (`raise_for_status` raises
`HTTPError` and `Response.json` raises `requests.JSONDecodeError`, both
subclasses) — or a decoded body.  Endpoint bodies that the client stores
without inspecting are carried as opaque `String` tokens. -/

/-- Fields of the decoded login response that `login` reads.  Optional
fields conflate a JSON `null` with an absent key: the source reads them
with `.get(..., {})`/`.get(..., None)` chains whose observable result is
the same in both cases (for `data.address`, via the
`except AttributeError` guard of rohlik_api.py lines 160-169). -/
structure LoginBody where
  /-- The vendor status `login_response["status"]` (numeric). -/
  status : Int
  /-- The first message content `login_response["messages"][0]["content"]`,
  when the messages array is non-empty; subscripting on a missing entry is
  a `KeyError`/`IndexError`. -/
  message : Option String
  /-- The nested `data.user.id`. -/
  userId : Option Int
  /-- The nested `data.address.id`; accounts without an address have no
  value here. -/
  addressId : Option Int
deriving DecidableEq, Repr

/-- Outcome of the login POST plus `Response.json()`. -/
inductive LoginOutcome where
  | transportErr (msg : String)
  | ok (body : LoginBody)
deriving DecidableEq, Repr

/-- Outcome of one aggregator GET (after `raise_for_status` and
`.json()`): any `RequestException` collapses to `failure`. -/
inductive GetOutcome where
  | failure (msg : String)
  | success (body : String)
deriving DecidableEq, Repr

/-- The mutable identifier state of a `RohlikCZAPI` instance
(`self._user_id` / `self._address_id`), both initialised to `None`. -/
structure ApiState where
  userId : Option Int
  addressId : Option Int
deriving DecidableEq, Repr

/-- A fresh client instance. -/
def initialState : ApiState := ⟨none, none⟩

/-- Python truthiness of a stored identifier, as tested by
`if not self._user_id`: `None` and `0` are falsy, every other integer is
truthy. -/
def idTruthy : Option Int → Bool
  | none => false
  | some n => n != 0

/-- The identifier extraction on the success path of `login` (rohlik_api.py
lines 154-169): each of `self._user_id` and `self._address_id` is assigned
from the nested response only while it is falsy. -/
def loginStateUpdate (st : ApiState) (body : LoginBody) : ApiState :=
  let st1 := if !idTruthy st.userId then { st with userId := body.userId } else st
  if !idTruthy st1.addressId then { st1 with addressId := body.addressId } else st1

/-- The `login(session)` coroutine (rohlik_api.py lines 120-176): dispatch
on the vendor status embedded in the JSON body, identifier extraction
guarded by truthiness, and wrapping of transport failures into
`APIRequestFailedError`.  The raised auth errors derive from
`HomeAssistantError`, so the surrounding `except RequestException` does not
intercept them. -/
def login (st : ApiState) (outcome : LoginOutcome) :
    Except PyExc (LoginBody × ApiState) :=
  match outcome with
  | .transportErr msg => .error (.apiRequestFailed msg)
  | .ok body =>
    if body.status != 200 then
      match body.message with
      | none => .error .keyError
      | some content =>
        if body.status == 401 then .error (.invalidCredentials content)
        else .error (.rohlikczLoginError content)
    else
      .ok (body, loginStateUpdate st body)

/-- One line item of the vendor cart body, with the fields that
`get_cart_content` reads via `.get(..., default)` (a missing field is
modelled by its default). -/
structure CartItem where
  orderFieldId : String
  productName : String
  quantity : Int
  price : Int
  primaryCategoryName : String
  brand : String
deriving DecidableEq, Repr

/-- The decoded cart response: `data.totalPrice`, the `data.items` mapping
of product id to item, and `data.submitConditionPassed`. -/
structure CartBody where
  totalPrice : Int
  items : List (String × CartItem)
  submitConditionPassed : Bool
deriving DecidableEq, Repr

/-- Outcome of the cart GET. -/
inductive CartOutcome where
  | failure (msg : String)
  | success (body : CartBody)
deriving DecidableEq, Repr

/-- One normalized cart product entry. -/
structure CartProduct where
  id : String
  cart_item_id : String
  name : String
  quantity : Int
  price : Int
  category_name : String
  brand : String
deriving DecidableEq, Repr

/-- The normalized cart mapping returned by `get_cart_content`. -/
structure CartInfo where
  total_price : Int
  total_items : Nat
  can_make_order : Bool
  products : List CartProduct
deriving DecidableEq, Repr

/-- The normalization of the cart body (rohlik_api.py lines 433-457). -/
def normalizeCart (b : CartBody) : CartInfo :=
  { total_price := b.totalPrice
    total_items := b.items.length
    can_make_order := b.submitConditionPassed
    products := b.items.map fun (pid, it) =>
      ⟨pid, it.orderFieldId, it.productName, it.quantity, it.price,
        it.primaryCategoryName, it.brand⟩ }

/-- The `logged_in=True` path of `get_cart_content` (rohlik_api.py lines
406-457), as invoked from `get_data` on the shared session: a
`RequestException` from the GET is caught, logged, and re-raised as
`ValueError("Request failed")` — not as a `RequestException`. -/
def get_cart_content (outcome : CartOutcome) : Except PyExc CartInfo :=
  match outcome with
  | .failure _ => .error (.valueError "Request failed")
  | .success body => .ok (normalizeCart body)

/-- The values stored into the snapshot mapping built by `get_data`. -/
inductive SnapVal where
  /-- The decoded login response under `result["login"]`. -/
  | loginResp (b : LoginBody)
  /-- A raw endpoint body stored unchanged. -/
  | raw (b : String)
  /-- The normalized cart under `result["cart"]`. -/
  | cart (c : CartInfo)
deriving DecidableEq, Repr

/-- The nine fan-out endpoints of `get_data`, with their paths, in the
iteration order of the `self.endpoints` dict literal (rohlik_api.py lines
188-198). -/
def endpointPaths : List (String × String) :=
  [("delivery", "/services/frontend-service/first-delivery?reasonableDeliveryTime=true"),
   ("next_order", "/api/v3/orders/upcoming"),
   ("announcements", "/services/frontend-service/announcements/top"),
   ("bags", "/api/v1/reusable-bags/user-info"),
   ("timeslot", "/services/frontend-service/v1/timeslot-reservation"),
   ("last_order", "/api/v3/orders/delivered?offset=0&limit=1"),
   ("premium_profile", "/services/frontend-service/premium/profile"),
   ("next_delivery_slot", "/services/frontend-service/timeslots-api/"),
   ("delivery_announcements", "/services/frontend-service/announcements/delivery")]

/-- The endpoint names iterated by the `get_data` loop. -/
def loopEndpointKeys : List String :=
  endpointPaths.map Prod.fst

/-- Every key of a complete snapshot, in insertion order: `login` first,
the fan-out endpoints, then `cart`. -/
def allSnapshotKeys : List String :=
  "login" :: loopEndpointKeys ++ ["cart"]

/-- The environment of one `get_data` run: the outcome of the login POST,
of each fan-out GET (keyed by endpoint name), and of the cart GET on the
shared session. -/
structure Env where
  loginOutcome : LoginOutcome
  endpointGet : String → GetOutcome
  cartGet : CartOutcome

/-- The snapshot value produced by the loop body for one endpoint
(rohlik_api.py lines 204-222): the `next_delivery_slot` endpoint is skipped
with a `null` value when the stored `address_id` is falsy; otherwise the
GET is issued and any `RequestException` (transport, HTTP status, JSON
decode) is logged and recorded as `null`. -/
def endpointValue (env : Env) (st : ApiState) (key : String) : Option SnapVal :=
  if key == "next_delivery_slot" && !idTruthy st.addressId then
    none
  else
    match env.endpointGet key with
    | .success b => some (.raw b)
    | .failure _ => none

/-- Whether the loop body issues a GET for the endpoint: always, except
for the skipped addressless `next_delivery_slot`. -/
def endpointIssued (st : ApiState) (key : String) : Bool :=
  !(key == "next_delivery_slot" && !idTruthy st.addressId)

/-- The result of a completed `get_data` call: the snapshot mapping in
insertion order, the final instance state, and the trace of issued
requests (by endpoint name, with `login` for the POST and `cart` for the
shared-session cart GET). -/
structure GetDataOk where
  snapshot : List (String × Option SnapVal)
  state : ApiState
  trace : List String
deriving DecidableEq, Repr

/-- The `get_data()` coroutine (rohlik_api.py lines 178-241).  Login
failure propagates.  Each fan-out endpoint contributes exactly one entry.
The cart is fetched through `get_cart_content(logged_in=True)` inside a
`try`/`except RequestException` clause; since that callee re-raises its
failures as `ValueError`, the clause matches only `RequestException`
values, and any other exception escapes `get_data` (the session is closed
by the `finally` block either way, which the embedding has no need to
model). -/
def get_data (st : ApiState) (env : Env) : Except PyExc GetDataOk :=
  match login st env.loginOutcome with
  | .error e => .error e
  | .ok (body, st1) =>
    let snap0 := ("login", some (.loginResp body)) ::
      loopEndpointKeys.map (fun k => (k, endpointValue env st1 k))
    let trace0 := "login" :: loopEndpointKeys.filter (endpointIssued st1)
    match get_cart_content env.cartGet with
    | .ok cartInfo =>
      .ok ⟨snap0 ++ [("cart", some (.cart cartInfo))], st1, trace0 ++ ["cart"]⟩
    | .error e =>
      if isRequestException e then
        .ok ⟨snap0 ++ [("cart", none)], st1, trace0 ++ ["cart"]⟩
      else
        .error e

/-! ## `search_product` (rohlik_api.py lines 287-367) -/

/-- One badge object of a found product; `badge.get("slug")` yields `none`
when the key is missing. -/
structure Badge where
  slug : Option String
deriving DecidableEq, Repr

/-- One entry of `search_data["data"]["productList"]` with the fields the
source reads.  `badge` and `favourite` are read with `.get` defaults, so a
missing key is modelled by the default (`[]` / `false`); the remaining
fields are subscripted and are therefore required. -/
structure FoundProduct where
  productId : Int
  productName : String
  priceFull : String
  priceCurrency : String
  brand : String
  textualAmount : String
  badge : List Badge
  favourite : Bool
deriving DecidableEq, Repr

/-- The query parameters sent to the search endpoint (the `filterData`
member is the constant `{"filters": []}` and is omitted). -/
structure SearchPayload where
  search : String
  offset : Nat
  limit : Nat
  companyId : Nat
  canCorrect : Bool
deriving DecidableEq, Repr

/-- The payload built by `search_product`: note the inflated limit. -/
def searchPayload (product_name : String) (limit : Nat) : SearchPayload :=
  ⟨product_name, 0, limit + 5, 1, true⟩

/-- Outcome of the search GET. -/
inductive SearchOutcome where
  | failure (msg : String)
  | success (productList : List FoundProduct)
deriving DecidableEq, Repr

/-- The sponsored-content test: some badge has slug `promoted`. -/
def isPromoted (p : FoundProduct) : Bool :=
  p.badge.any fun b => b.slug == some "promoted"

/-- One normalized search result entry; `price` is the interpolation
`f"{price.full} {price.currency}"`. -/
structure SearchResult where
  id : Int
  name : String
  price : String
  brand : String
  amount : String
deriving DecidableEq, Repr

/-- Normalization of one found product into a search result entry. -/
def normalizeProduct (p : FoundProduct) : SearchResult :=
  ⟨p.productId, p.productName, p.priceFull ++ " " ++ p.priceCurrency,
    p.brand, p.textualAmount⟩

/-- The filtering pipeline of `search_product` over the fetched product
list: drop promoted entries, keep favourites when requested, truncate to
`limit`. -/
def filterProducts (found : List FoundProduct) (limit : Nat)
    (favourite : Bool) : List FoundProduct :=
  let noPromoted := found.filter fun p => !isPromoted p
  let kept := if favourite then noPromoted.filter (fun p => p.favourite) else noPromoted
  if kept.length > limit then kept.take limit else kept

/-- The `search_product(product_name, limit, favourite)` coroutine after a
successful login: the environment maps the sent payload to the outcome of
the GET; any `RequestException` is caught and `None` is returned, and an
empty filtered list also yields `None`. -/
def search_product (product_name : String) (limit : Nat) (favourite : Bool)
    (env : SearchPayload → SearchOutcome) : Option (List SearchResult) :=
  match env (searchPayload product_name limit) with
  | .failure _ => none
  | .success found =>
    let kept := filterProducts found limit favourite
    if kept.length > 0 then some (kept.map normalizeProduct) else none

/-! ## Outbound request call sites

Each outbound HTTP call in rohlik_api.py, reified with the keyword
arguments it passes.  None of the `session.post`/`session.get`/
`session.delete` calls in the module passes a `timeout` argument, so each
record carries `timeout := none` (the `requests` library then waits
without bound). -/

/-- One outbound request call site: the enclosing method, the HTTP verb,
the path (with placeholders for interpolated values), and the `timeout`
keyword argument passed to `requests`, in seconds. -/
structure RequestSpec where
  func : String
  verb : String
  path : String
  timeout : Option Nat
deriving DecidableEq, Repr

/-- Every outbound request call site of rohlik_api.py: the login POST
(line 138), the nine aggregator GETs (line 217), the shared-session cart
GET (line 419), the cart add POST (line 269), the search GET (line 321),
the shopping-list GET (line 389), and the cart delete DELETE (line 478). -/
def clientRequests : List RequestSpec :=
  [⟨"login", "POST", "/services/frontend-service/login", none⟩,
   ⟨"get_data", "GET", "/services/frontend-service/first-delivery?reasonableDeliveryTime=true", none⟩,
   ⟨"get_data", "GET", "/api/v3/orders/upcoming", none⟩,
   ⟨"get_data", "GET", "/services/frontend-service/announcements/top", none⟩,
   ⟨"get_data", "GET", "/api/v1/reusable-bags/user-info", none⟩,
   ⟨"get_data", "GET", "/services/frontend-service/v1/timeslot-reservation", none⟩,
   ⟨"get_data", "GET", "/api/v3/orders/delivered?offset=0&limit=1", none⟩,
   ⟨"get_data", "GET", "/services/frontend-service/premium/profile", none⟩,
   ⟨"get_data", "GET", "/services/frontend-service/timeslots-api/0?userId=<user>&addressId=<address>&reasonableDeliveryTime=true", none⟩,
   ⟨"get_data", "GET", "/services/frontend-service/announcements/delivery", none⟩,
   ⟨"get_cart_content", "GET", "/services/frontend-service/v2/cart", none⟩,
   ⟨"add_to_cart", "POST", "/services/frontend-service/v2/cart", none⟩,
   ⟨"search_product", "GET", "/services/frontend-service/search-metadata", none⟩,
   ⟨"get_shopping_list", "GET", "/api/v1/shopping-lists/id/<list>", none⟩,
   ⟨"delete_from_cart", "DELETE", "/services/frontend-service/v2/cart?orderFieldId=<item>", none⟩]

/-! ## Concrete fixtures

Closed values used by the concrete instances below. -/

/-- Reference now 2024-03-15 10:00 (wall clock in the selected zone). -/
def now0 : LocalDT := ⟨2024, 3, 15, 10, 0, 0, 0⟩

/-- A successful login body with truthy identifiers. -/
def loginBody0 : LoginBody := ⟨200, some "ok", some 1, some 2⟩

/-- A successful login body for an account without an address. -/
def loginBodyNoAddr : LoginBody := ⟨200, some "ok", some 1, none⟩

/-- A small decoded cart body. -/
def cartBody0 : CartBody :=
  ⟨100, [("p1", ⟨"of1", "Milk", 2, 50, "Dairy", "BrandA"⟩)], true⟩

/-- A run in which every request succeeds. -/
def envAllOk : Env := ⟨.ok loginBody0, fun _ => .success "payload", .success cartBody0⟩

/-- A run in which only the shared-session cart GET fails. -/
def envCartFailA : Env :=
  ⟨.ok loginBody0, fun _ => .success "payload", .failure "connection reset"⟩

/-- A second run in which only the shared-session cart GET fails. -/
def envCartFailB : Env :=
  ⟨.ok loginBody0, fun _ => .success "payload", .failure "read timeout"⟩

/-- A successful run for an account without an address. -/
def envNoAddr : Env :=
  ⟨.ok loginBodyNoAddr, fun _ => .success "payload", .success cartBody0⟩

/-- A found product carrying the `promoted` badge slug. -/
def promotedProduct : FoundProduct :=
  ⟨11, "Sponsored Milk", "30", "CZK", "BrandS", "1 l", [⟨some "promoted"⟩], false⟩

/-- A found product without badges, flagged favourite. -/
def plainProduct : FoundProduct :=
  ⟨12, "Milk", "25", "CZK", "BrandM", "1 l", [], true⟩

/-- A search environment returning the two products above for every
query. -/
def searchEnv0 : SearchPayload → SearchOutcome :=
  fun _ => .success [promotedProduct, plainProduct]

/-! ## Helper lemmas -/

/-- Truncating a list to `limit` when it is longer yields at most `limit`
entries. -/
theorem lengthTruncLe {α : Type} (l : List α) (limit : Nat) :
    (if l.length > limit then l.take limit else l).length ≤ limit := by
  split
  · simp
  · omega

/-- Membership survives the conditional truncation. -/
theorem memOfMemTrunc {α : Type} (l : List α) (limit : Nat) (p : α)
    (hp : p ∈ (if l.length > limit then l.take limit else l)) : p ∈ l := by
  split at hp
  · exact List.mem_of_mem_take hp
  · exact hp

/-- The filtering pipeline never keeps more than `limit` entries. -/
theorem filterProducts_length_le (found : List FoundProduct) (limit : Nat)
    (favourite : Bool) : (filterProducts found limit favourite).length ≤ limit :=
  lengthTruncLe _ limit

/-- Every entry kept by the filtering pipeline came from the fetched list,
is not promoted, and — when favourites were requested — is flagged
favourite. -/
theorem filterProducts_mem (found : List FoundProduct) (limit : Nat)
    (favourite : Bool) (p : FoundProduct)
    (hp : p ∈ filterProducts found limit favourite) :
    p ∈ found ∧ isPromoted p = false ∧ (favourite = true → p.favourite = true) := by
  have hp2 : p ∈ (if favourite then
      (found.filter fun q => !isPromoted q).filter (fun q => q.favourite)
    else found.filter fun q => !isPromoted q) :=
    memOfMemTrunc _ limit p hp
  cases favourite with
  | false =>
    simp only [if_neg Bool.false_ne_true] at hp2
    have h1 := List.mem_filter.mp hp2
    exact ⟨h1.1, by simpa using h1.2, by intro h; cases h⟩
  | true =>
    simp only [if_pos rfl] at hp2
    have h1 := List.mem_filter.mp hp2
    have h2 := List.mem_filter.mp h1.1
    exact ⟨h2.1, by simpa using h2.2, fun _ => h1.2⟩

/-! ## Claim theorems -/

/-- C2: for every `login()` call, a vendor status of 200 succeeds and
returns the decoded body; exactly 401 raises `InvalidCredentialsError`
carrying the vendor message; any other non-200 status raises the generic
`RohlikczError` carrying the vendor message; and a transport-level request
failure raises `APIRequestFailedError`, a constructor distinct from both
auth errors. -/
theorem login_status_dispatch (st : ApiState) (body : LoginBody) :
    (body.status = 200 → login st (.ok body) = .ok (body, loginStateUpdate st body)) ∧
    (∀ content, body.message = some content →
      (body.status = 401 → login st (.ok body) = .error (.invalidCredentials content)) ∧
      (body.status ≠ 200 → body.status ≠ 401 →
        login st (.ok body) = .error (.rohlikczLoginError content))) ∧
    (∀ msg, login st (.transportErr msg) = .error (.apiRequestFailed msg)) ∧
    (∀ msg content, PyExc.apiRequestFailed msg ≠ PyExc.invalidCredentials content ∧
      PyExc.apiRequestFailed msg ≠ PyExc.rohlikczLoginError content) := by
  refine ⟨?_, ?_, fun msg => rfl, fun msg content => ⟨by simp, by simp⟩⟩
  · intro h200
    simp [login, h200]
  · intro content hmsg
    constructor
    · intro h401
      have hne : (body.status != 200) = true := by simp [h401]
      simp [login, hne, hmsg, h401]
    · intro hne200 hne401
      have h1 : (body.status != 200) = true := by simp [hne200]
      have h2 : (body.status == 401) = false := by simp [hne401]
      simp [login, h1, h2, hmsg]

/-- C2 witness: the four branches at concrete inputs. -/
theorem login_status_dispatch_witness :
    login initialState (.ok ⟨200, some "ok", some 7, some 8⟩) =
      .ok (⟨200, some "ok", some 7, some 8⟩,
        loginStateUpdate initialState ⟨200, some "ok", some 7, some 8⟩) ∧
    login initialState (.ok ⟨401, some "bad credentials", none, none⟩) =
      .error (.invalidCredentials "bad credentials") ∧
    login initialState (.ok ⟨500, some "server error", none, none⟩) =
      .error (.rohlikczLoginError "server error") ∧
    login initialState (.transportErr "dns failure") =
      .error (.apiRequestFailed "dns failure") :=
  ⟨(login_status_dispatch initialState ⟨200, some "ok", some 7, some 8⟩).1 rfl,
    ((login_status_dispatch initialState ⟨401, some "bad credentials", none, none⟩).2.1
      "bad credentials" rfl).1 rfl,
    ((login_status_dispatch initialState ⟨500, some "server error", none, none⟩).2.1
      "server error" rfl).2 (by decide) (by decide),
    (login_status_dispatch initialState ⟨0, none, none, none⟩).2.2.1 "dns failure"⟩

/-- C10 counterexample: a first login can set `user_id` (and `address_id`)
to the non-null value 0, which a second login then overwrites, because the
guard `if not self._user_id` tests truthiness, not nullness. -/
theorem login_id_overwrite_counterexample :
    login initialState (.ok ⟨200, some "ok", some 0, some 0⟩) =
      .ok (⟨200, some "ok", some 0, some 0⟩, ⟨some 0, some 0⟩) ∧
    login ⟨some 0, some 0⟩ (.ok ⟨200, some "ok", some 5, some 6⟩) =
      .ok (⟨200, some "ok", some 5, some 6⟩, ⟨some 5, some 6⟩) ∧
    (some (0 : Int)).isSome = true ∧ some (5 : Int) ≠ some (0 : Int) :=
  ⟨rfl, rfl, rfl, by decide⟩

/-- C10 amended: once a stored identifier is truthy (non-null and
non-zero), no later `login()` call changes it. -/
theorem login_preserves_truthy_ids (st : ApiState) (o : LoginOutcome)
    (body : LoginBody) (st2 : ApiState) (h : login st o = .ok (body, st2)) :
    (idTruthy st.userId = true → st2.userId = st.userId) ∧
    (idTruthy st.addressId = true → st2.addressId = st.addressId) := by
  cases o with
  | transportErr m => simp [login] at h
  | ok b =>
    simp only [login] at h
    split at h
    · split at h
      · exact absurd h (by simp)
      · split at h <;> exact absurd h (by simp)
    · rw [Except.ok.injEq, Prod.mk.injEq] at h
      obtain ⟨-, hst⟩ := h
      subst hst
      constructor
      · intro ht
        simp only [loginStateUpdate, ht, Bool.not_true, Bool.false_eq_true, if_false]
        split <;> rfl
      · intro ht
        by_cases hu : idTruthy st.userId = true <;>
          simp [loginStateUpdate, hu, ht]

/-- C10 amended witness: a client whose identifiers are already truthy
keeps them across a further successful login carrying different ids. -/
theorem login_preserves_truthy_ids_witness :
    (⟨some 7, some 8⟩ : ApiState).userId = some 7 ∧
    (⟨some 7, some 8⟩ : ApiState).addressId = some 8 := by
  have h := login_preserves_truthy_ids ⟨some 7, some 8⟩
    (.ok ⟨200, some "ok", some 1, some 2⟩) ⟨200, some "ok", some 1, some 2⟩
    ⟨some 7, some 8⟩ rfl
  exact ⟨h.1 (by decide), h.2 (by decide)⟩

/-- C9 counterexample: the claim that every outbound call carries a bounded
timeout fails already at the login POST, which passes no timeout
argument. -/
theorem requests_timeout_counterexample :
    ¬ (∀ r ∈ clientRequests, ∃ t, r.timeout = some t ∧ t ≤ 30) := by
  intro h
  obtain ⟨t, ht, -⟩ :=
    h ⟨"login", "POST", "/services/frontend-service/login", none⟩ (by decide)
  simp at ht

/-- C9 amended: no outbound request call site of the client passes a
timeout at all; every call uses the `requests` default of waiting without
bound. -/
theorem requests_no_timeout (r : RequestSpec) (hr : r ∈ clientRequests) :
    r.timeout = none := by
  fin_cases hr <;> rfl

/-- C9 amended witness: the login POST call site. -/
theorem requests_no_timeout_witness :
    (⟨"login", "POST", "/services/frontend-service/login", none⟩ : RequestSpec).timeout = none :=
  requests_no_timeout _ (by decide)

/-- C3: inside `get_data`, a failure of the shared-session cart GET is
re-raised by `get_cart_content` as `ValueError("Request failed")`, which
the `except RequestException` clause of `get_data` does not match, so the
call aborts with that exception instead of returning the snapshot with a
null `cart` key. -/
theorem get_data_cart_failure_raises :
    get_cart_content (.failure "read timeout") = .error (.valueError "Request failed") ∧
    isRequestException (.valueError "Request failed") = false ∧
    get_data initialState envCartFailB = .error (.valueError "Request failed") :=
  ⟨rfl, rfl, rfl⟩

/-- C5: `search_product` queries the vendor with the inflated limit
`limit + 5`; a non-null result is exactly the normalization of the filtered
list, which never exceeds `limit` entries and contains no promoted entry
(and, when favourites were requested, only favourites); when nothing
remains after filtering, the result is null. -/
theorem search_product_filtering (product_name : String) (limit : Nat)
    (favourite : Bool) (env : SearchPayload → SearchOutcome)
    (found : List FoundProduct)
    (henv : env (searchPayload product_name limit) = .success found) :
    (searchPayload product_name limit).limit = limit + 5 ∧
    (∀ r, search_product product_name limit favourite env = some r →
      r = (filterProducts found limit favourite).map normalizeProduct ∧
      r.length ≤ limit ∧
      ∀ p ∈ filterProducts found limit favourite,
        isPromoted p = false ∧ (favourite = true → p.favourite = true)) ∧
    (filterProducts found limit favourite = [] →
      search_product product_name limit favourite env = none) := by
  refine ⟨rfl, ?_, ?_⟩
  · intro r hr
    simp only [search_product, henv] at hr
    split at hr
    · rw [Option.some.injEq] at hr
      refine ⟨hr.symm, ?_, ?_⟩
      · rw [← hr, List.length_map]
        exact filterProducts_length_le found limit favourite
      · intro p hp
        have h := filterProducts_mem found limit favourite p hp
        exact ⟨h.2.1, h.2.2⟩
    · cases hr
  · intro hempty
    simp only [search_product, henv, hempty]
    simp

/-- C5 witness: with one promoted and one ordinary product fetched and
`limit = 1`, the promoted entry is dropped and the result stays within the
limit. -/
theorem search_product_filtering_witness :
    ([normalizeProduct plainProduct].length ≤ 1) ∧
    isPromoted plainProduct = false := by
  have h := (search_product_filtering "milk" 1 false searchEnv0
    [promotedProduct, plainProduct] rfl).2.1 [normalizeProduct plainProduct] rfl
  exact ⟨h.2.1, (h.2.2 plainProduct (by decide)).1⟩

/-- The explicit successful form of a `get_data` run: login succeeded with
final state `st1` and the shared-session cart GET succeeded. -/
theorem get_data_ok_form (st : ApiState) (env : Env) (body : LoginBody)
    (st1 : ApiState) (cb : CartBody)
    (hl : login st env.loginOutcome = .ok (body, st1))
    (hc : env.cartGet = .success cb) :
    get_data st env = .ok ⟨("login", some (.loginResp body)) ::
        loopEndpointKeys.map (fun k => (k, endpointValue env st1 k)) ++
        [("cart", some (.cart (normalizeCart cb)))],
      st1,
      ("login" :: loopEndpointKeys.filter (endpointIssued st1)) ++ ["cart"]⟩ := by
  unfold get_data
  rw [hl, hc]
  rfl

/-- C8: when login succeeds but leaves `address_id` null, the snapshot maps
`next_delivery_slot` to null, no request is issued for that endpoint, and
every other fan-out endpoint (and the cart) is still requested. -/
theorem get_data_skips_slot_without_address (st : ApiState) (env : Env)
    (body : LoginBody) (st1 : ApiState) (cb : CartBody)
    (hl : login st env.loginOutcome = .ok (body, st1))
    (haddr : st1.addressId = none)
    (hc : env.cartGet = .success cb) :
    ∃ r, get_data st env = .ok r ∧
      r.snapshot.lookup "next_delivery_slot" = some none ∧
      "next_delivery_slot" ∉ r.trace ∧
      (∀ k ∈ loopEndpointKeys, k ≠ "next_delivery_slot" → k ∈ r.trace) ∧
      "cart" ∈ r.trace := by
  refine ⟨_, get_data_ok_form st env body st1 cb hl hc, ?_, ?_, ?_, ?_⟩
  · simp [loopEndpointKeys, endpointPaths, List.lookup, endpointValue, haddr, idTruthy]
  · simp [loopEndpointKeys, endpointPaths, endpointIssued, haddr, idTruthy]
  · intro k hk hne
    simp only [loopEndpointKeys, endpointPaths, List.map_cons, List.map_nil,
      List.mem_cons, List.not_mem_nil, or_false] at hk
    rcases hk with rfl | rfl | rfl | rfl | rfl | rfl | rfl | rfl | rfl <;>
      simp_all [endpointIssued, haddr, idTruthy, loopEndpointKeys, endpointPaths]
  · simp

/-- C8 witness: a concrete addressless run. -/
theorem get_data_skips_slot_without_address_witness :
    ∃ r, get_data initialState envNoAddr = .ok r ∧
      r.snapshot.lookup "next_delivery_slot" = some none ∧
      "next_delivery_slot" ∉ r.trace ∧
      (∀ k ∈ loopEndpointKeys, k ≠ "next_delivery_slot" → k ∈ r.trace) ∧
      "cart" ∈ r.trace :=
  get_data_skips_slot_without_address initialState envNoAddr loginBodyNoAddr
    ⟨some 1, none⟩ cartBody0 rfl rfl rfl

/-- C1 amended: in a run whose login and cart fetch succeed, `get_data`
returns a snapshot whose keys are exactly the eleven fixed endpoint keys,
with `login` non-null; a fan-out endpoint that failed is mapped to null;
and the value produced for any key depends only on that key's own request
outcome (together with the login and cart outcomes), so the failure of any
other endpoint cannot change it.  A failure of the cart fetch, by
contrast, aborts the call (see the cart-failure results). -/
theorem get_data_snapshot (st : ApiState) (env env2 : Env)
    (body : LoginBody) (st1 : ApiState) (cb : CartBody)
    (hl : login st env.loginOutcome = .ok (body, st1))
    (hc : env.cartGet = .success cb) :
    ∃ r, get_data st env = .ok r ∧
      r.snapshot.map Prod.fst = allSnapshotKeys ∧
      r.snapshot.lookup "login" = some (some (.loginResp body)) ∧
      (∀ e ∈ loopEndpointKeys, ∀ msg, env.endpointGet e = .failure msg →
        r.snapshot.lookup e = some none) ∧
      (env2.loginOutcome = env.loginOutcome → env2.cartGet = env.cartGet →
        ∀ k ∈ allSnapshotKeys,
          (k ∈ loopEndpointKeys → env2.endpointGet k = env.endpointGet k) →
          ∃ r2, get_data st env2 = .ok r2 ∧
            r2.snapshot.lookup k = r.snapshot.lookup k) := by
  refine ⟨_, get_data_ok_form st env body st1 cb hl hc, ?_, ?_, ?_, ?_⟩
  · simp [loopEndpointKeys, endpointPaths, allSnapshotKeys]
  · simp [List.lookup]
  · intro e he msg hf
    simp only [loopEndpointKeys, endpointPaths, List.map_cons, List.map_nil,
      List.mem_cons, List.not_mem_nil, or_false] at he
    rcases he with rfl | rfl | rfl | rfl | rfl | rfl | rfl | rfl | rfl <;>
      simp [loopEndpointKeys, endpointPaths, List.lookup, endpointValue, hf]
  · intro h2l h2c k hk hagree
    have hl2 : login st env2.loginOutcome = .ok (body, st1) := by rw [h2l]; exact hl
    have hc2 : env2.cartGet = .success cb := by rw [h2c]; exact hc
    refine ⟨_, get_data_ok_form st env2 body st1 cb hl2 hc2, ?_⟩
    simp only [allSnapshotKeys, loopEndpointKeys, endpointPaths, List.map_cons,
      List.map_nil, List.mem_cons, List.not_mem_nil, or_false,
      List.cons_append, List.nil_append] at hk
    rcases hk with rfl | rfl | rfl | rfl | rfl | rfl | rfl | rfl | rfl | rfl | rfl <;>
      first
      | rfl
      | (have hag := hagree (by simp [loopEndpointKeys, endpointPaths])
         simp [loopEndpointKeys, endpointPaths, List.lookup, endpointValue, hag])

/-- C1 witness: a fully successful concrete run. -/
theorem get_data_snapshot_witness :
    ∃ r, get_data initialState envAllOk = .ok r ∧
      r.snapshot.map Prod.fst = allSnapshotKeys ∧
      r.snapshot.lookup "login" = some (some (.loginResp loginBody0)) := by
  obtain ⟨r, h1, h2, h3, -⟩ := get_data_snapshot initialState envAllOk envAllOk
    loginBody0 ⟨some 1, some 2⟩ cartBody0 rfl rfl
  exact ⟨r, h1, h2, h3⟩

/-- C1 counterexample: a run in which only the cart GET fails does not
return at all — `get_data` aborts with the `ValueError` re-raised by
`get_cart_content` — refuting the claim that a failure of any one
endpoint's GET merely nulls that key and never aborts the call. -/
theorem get_data_cart_abort_counterexample :
    get_data initialState envCartFailA = .error (.valueError "Request failed") ∧
    ∀ r, get_data initialState envCartFailA ≠ .ok r := by
  refine ⟨rfl, ?_⟩
  intro r h
  have h2 : (Except.error (PyExc.valueError "Request failed") :
      Except PyExc GetDataOk) = .ok r := h
  exact Except.noConfusion h2

/-- C7 counterexample: the parser is not total — a lone trailing backslash
makes the `unicode_escape` preprocessing raise `UnicodeDecodeError`, which
no handler in the function catches. -/
theorem extract_raises_on_trailing_backslash :
    extract_delivery_datetime "\\" false now0 = .error .unicodeDecodeError := rfl

/-- C7 amended: on every input whose `unicode_escape` preprocessing
succeeds, the parser returns normally — a timestamp or null, never an
exception (each per-pattern numeric failure is caught and falls through);
and an input in which no pattern matches yields null. -/
theorem extract_total_on_decodable_input (text : String) (is_knuspr : Bool)
    (now : LocalDT) (clean : List Char)
    (hdec : decodeUnicodeEscape text = some clean) :
    extract_delivery_datetime text is_knuspr now =
      .ok (extractFromClean clean is_knuspr now) ∧
    (extractFromClean clean is_knuspr now = none ∨
      ∃ dtz, extractFromClean clean is_knuspr now = some dtz) ∧
    (searchSpanMinutes clean = none →
      searchPlainMinutes (stripTags clean) = none →
      (is_knuspr = true → searchDeDateTime (stripTags clean) = none) →
      searchSpanColorTime clean = none →
      searchPlainTime (stripTags clean) = none →
      extract_delivery_datetime text is_knuspr now = .ok none) := by
  refine ⟨?_, ?_, ?_⟩
  · simp [extract_delivery_datetime, hdec]
  · cases h : extractFromClean clean is_knuspr now with
    | none => exact .inl rfl
    | some dtz => exact .inr ⟨dtz, rfl⟩
  · intro h1 h2 h3 h4 h5
    simp only [extract_delivery_datetime, hdec]
    cases hk : is_knuspr
    · cases hdm : searchSpanColorDate clean <;>
        simp [extractFromClean, h1, h2, h4, h5, hdm]
    · cases hdm : searchSpanColorDate clean <;>
        simp [extractFromClean, h1, h2, h3 hk, h4, h5, hdm]

/-- C7 amended witness: a decodable input with no time pattern. -/
theorem extract_total_on_decodable_input_witness :
    extract_delivery_datetime "hello there" false now0 = .ok none := by
  have h := extract_total_on_decodable_input "hello there" false now0
    "hello there".data (by decide)
  exact h.2.2 (by decide) (by decide) (fun hk => absurd hk (by decide))
    (by decide) (by decide)

/-- C4: when the preprocessed input matches no minutes pattern, no German
date pattern, and no highlighted date span, but its highlighted time span
captures a valid time of day, the result is that time on today's date in
the selected zone, rolled to tomorrow's date exactly when the today
instant is strictly before the reference now. -/
theorem extract_time_only_today_tomorrow (text : String) (is_knuspr : Bool)
    (now : LocalDT) (clean : List Char) (h mi : Nat)
    (hdec : decodeUnicodeEscape text = some clean)
    (hm1 : searchSpanMinutes clean = none)
    (hm2 : searchPlainMinutes (stripTags clean) = none)
    (hde : is_knuspr = true → searchDeDateTime (stripTags clean) = none)
    (hdate : searchSpanColorDate clean = none)
    (htime : searchSpanColorTime clean = some (h, mi))
    (hvalid : validTime h mi = true) :
    extract_delivery_datetime text is_knuspr now =
      .ok (some ⟨if dtLt (combineToday now h mi) now
            then combineTomorrow now h mi else combineToday now h mi,
          if is_knuspr then Tz.berlin else Tz.prague⟩) := by
  simp only [extract_delivery_datetime, hdec]
  cases hk : is_knuspr
  · cases hlt : dtLt (combineToday now h mi) now <;>
      simp [extractFromClean, hm1, hm2, hdate, htime, resolveTimeToday,
        hvalid, hlt]
  · cases hlt : dtLt (combineToday now h mi) now <;>
      simp [extractFromClean, hm1, hm2, hde hk, hdate, htime,
        resolveTimeToday, hvalid, hlt]

/-- C4 witness: with reference now 2024-03-15 10:00 in the primary zone, a
highlighted `09:00` rolls to tomorrow and a highlighted `17:23` stays
today. -/
theorem extract_time_only_today_tomorrow_witness :
    extract_delivery_datetime "<span style=\"color: green\">09:00</span>" false now0 =
      .ok (some ⟨⟨2024, 3, 16, 9, 0, 0, 0⟩, .prague⟩) ∧
    extract_delivery_datetime "<span style=\"color: green\">17:23</span>" false now0 =
      .ok (some ⟨⟨2024, 3, 15, 17, 23, 0, 0⟩, .prague⟩) := by
  constructor
  · have h := extract_time_only_today_tomorrow
      "<span style=\"color: green\">09:00</span>" false now0
      "<span style=\"color: green\">09:00</span>".data 9 0
      (by decide) (by decide) (by decide) (fun hk => absurd hk (by decide))
      (by decide) (by decide) (by decide)
    rw [h]
    rfl
  · have h := extract_time_only_today_tomorrow
      "<span style=\"color: green\">17:23</span>" false now0
      "<span style=\"color: green\">17:23</span>".data 17 23
      (by decide) (by decide) (by decide) (fun hk => absurd hk (by decide))
      (by decide) (by decide) (by decide)
    rw [h]
    rfl

/-- C6: in the alternate locale, the time captured by the "around/at
HH:MM" pattern does not determine the result: the capture (here 11:30) is
stored into `time_matches` and then unconditionally overwritten (sensor.py
line 209), so the function instead resolves the first plain-text time
(here 08:00) through the generic fallback — even though the captured time
would have resolved to a different timestamp. -/
theorem extract_de_time_only_overwritten :
    decodeUnicodeEscape "von 08:00, gegen 11:30" =
      some "von 08:00, gegen 11:30".data ∧
    searchDeTimeOnly (stripTags "von 08:00, gegen 11:30".data) = some (11, 30) ∧
    resolveTimeToday now0 11 30 = some ⟨2024, 3, 15, 11, 30, 0, 0⟩ ∧
    extract_delivery_datetime "von 08:00, gegen 11:30" true now0 =
      .ok (some ⟨⟨2024, 3, 16, 8, 0, 0, 0⟩, .berlin⟩) :=
  ⟨by decide, by decide, by decide, rfl⟩
